import Mathlib

/-!
Shallow embedding of the `vector-2d` geometry library and verification of its
specification.

The library has two parallel implementations of a fixed-size vector type:
`source/vec.h` (class `Vec<T, N>`) and `source/dm/vector.h` (class
`Vector<T, N>`), the latter built on the lazy elementwise-expression engine of
`source/dm/elementwise.h` (class `OperandExpression`), the scalar helpers of
`source/dm/math.h` and the pack folds of `source/dm/vector_internal.h`.

A vector `Vec<T, N>` owns a `std::array<T, N>`; we model it as a function
`Fin n → α`.  Batch reductions take an iterator range / container of vectors;
we model the range as a `List`.  `int` values are modelled as unbounded `Int`
except where two's-complement truncation matters, where the 32-bit wrap is
made explicit (`wrap32`).
-/

namespace DM

/-- `Vec<T, N>` / `Vector<T, N>`: an inline fixed-length sequence of `N`
scalars, i.e. `std::array<T, N>`, modelled positionally. -/
abbrev Vec (α : Type) (n : Nat) : Type := Fin n → α

/-- `dm::math::abs_difference` (dm/math.h, lines 7-11), also `Vec::abs_difference_`
(vec.h, lines 237-240): `(lhs < rhs) ? rhs - lhs : lhs - rhs`. -/
def abs_difference {α : Type} [LinearOrder α] [Sub α] (lhs rhs : α) : α :=
  if lhs < rhs then rhs - lhs else lhs - rhs

/-! ## The expression engine (dm/elementwise.h)

An `OperandExpression` holds one operator closure and borrows its operands; an
operand is a vector (or any indexable container), a scalar, or another
expression node.  The factory functions only ever build unary and binary
nodes, so operands are modelled by an inductive with unary and binary node
constructors.  -/

/-- An admissible operand of the expression engine: an indexable container
(`Vec` / `std::array`), a scalar, or an `OperandExpression` node of one or two
operands (dm/elementwise.h, lines 34-57). -/
inductive Operand (α : Type) (n : Nat) : Type where
  | vec    : Vec α n → Operand α n
  | scalar : α → Operand α n
  | node1  : (α → α) → Operand α n → Operand α n
  | node2  : (α → α → α) → Operand α n → Operand α n → Operand α n

/-- `dm::elementwise::element` (dm/elementwise.h, lines 16-26) together with
`OperandExpression::operator[]` (lines 43-52): an indexable operand yields its
`i`-th element, a scalar operand yields itself for every `i`, and indexing a
node applies its operator to the per-index values of its operands. -/
def element {α : Type} {n : Nat} : Operand α n → Fin n → α
  | .vec v, i => v i
  | .scalar s, _ => s
  | .node1 f a, i => f (element a i)
  | .node2 f a b, i => f (element a i) (element b i)

/-- `make_negate_expression` (dm/elementwise.h, lines 68-74). -/
def make_negate_expression {α : Type} {n : Nat} [Neg α] (value : Operand α n) :
    Operand α n :=
  .node1 (fun el => -el) value

/-- `make_sum_expression` (dm/elementwise.h, lines 82-88). -/
def make_sum_expression {α : Type} {n : Nat} [Add α] (lhs rhs : Operand α n) :
    Operand α n :=
  .node2 (fun lhs_el rhs_el => lhs_el + rhs_el) lhs rhs

/-- `make_difference_expression` (dm/elementwise.h, lines 96-102). -/
def make_difference_expression {α : Type} {n : Nat} [Sub α] (lhs rhs : Operand α n) :
    Operand α n :=
  .node2 (fun lhs_el rhs_el => lhs_el - rhs_el) lhs rhs

/-- `make_absolute_difference_expression` (dm/elementwise.h, lines 110-116):
wraps `dm::math`'s absolute difference. -/
def make_absolute_difference_expression {α : Type} {n : Nat} [LinearOrder α] [Sub α]
    (lhs rhs : Operand α n) : Operand α n :=
  .node2 (fun lhs_el rhs_el => abs_difference lhs_el rhs_el) lhs rhs

/-- `make_product_expression` (dm/elementwise.h, lines 124-130). -/
def make_product_expression {α : Type} {n : Nat} [Mul α] (lhs rhs : Operand α n) :
    Operand α n :=
  .node2 (fun lhs_el rhs_el => lhs_el * rhs_el) lhs rhs

/-- `make_quotient_expression` (dm/elementwise.h, lines 138-144). -/
def make_quotient_expression {α : Type} {n : Nat} [Div α] (lhs rhs : Operand α n) :
    Operand α n :=
  .node2 (fun lhs_el rhs_el => lhs_el / rhs_el) lhs rhs

/-! ## Pack folds (dm/vector_internal.h) -/

/-- `dm::geom::internal::max` binary case (dm/vector_internal.h, lines 8-12):
`(lhs < rhs) ? rhs : lhs`. -/
def internal_max {α : Type} [LinearOrder α] (lhs rhs : α) : α :=
  if lhs < rhs then rhs else lhs

/-- The variadic `dm::geom::internal::max` (dm/vector_internal.h, lines 14-18):
`max(element, max(elements...))`, folded to the right over a non-empty pack
written as head element plus tail list. -/
def max_chain {α : Type} [LinearOrder α] : α → List α → α
  | a, [] => a
  | a, b :: bs => internal_max a (max_chain b bs)

/-- `dm::geom::internal::max_element` (dm/vector_internal.h, lines 20-24):
`max(object[0], ..., object[n])`; the pack must be non-empty, hence the `n + 1`
dimension. -/
def max_element {α : Type} [LinearOrder α] {n : Nat} (o : Fin (n + 1) → α) : α :=
  max_chain (o 0) (List.ofFn fun i : Fin n => o i.succ)

/-- The C++ unary right fold `(object[I] + ...)` underlying
`dm::geom::internal::element_sum`, head element plus tail list. -/
def sum_chain {α : Type} [Add α] : α → List α → α
  | a, [] => a
  | a, b :: bs => a + sum_chain b bs

/-- `dm::geom::internal::element_sum` (dm/vector_internal.h, lines 26-30):
`(object[0] + object[1] + ...)`; the pack must be non-empty, hence the `n + 1`
dimension. -/
def element_sum {α : Type} [Add α] {n : Nat} (o : Fin (n + 1) → α) : α :=
  sum_chain (o 0) (List.ofFn fun i : Fin n => o i.succ)

/-! ## Geometry reductions of dm/vector.h -/

/-- `dm::geom::dot_product` (dm/vector.h, lines 38-43): `element_sum` of a
product expression node over the two operands. -/
def dot_product {α : Type} [Add α] [Mul α] {n : Nat} (lhs rhs : Vec α (n + 1)) : α :=
  element_sum (element (make_product_expression (.vec lhs) (.vec rhs)))

/-- `dm::geom::chebyshev_distance` (dm/vector.h, lines 71-76): `max_element` of
an absolute-difference expression node. -/
def chebyshev_distance {α : Type} [LinearOrder α] [Sub α] {n : Nat}
    (lhs rhs : Vec α (n + 1)) : α :=
  max_element (element (make_absolute_difference_expression (.vec lhs) (.vec rhs)))

/-- `dm::geom::manhattan_distance` (dm/vector.h, lines 78-83): `element_sum` of
an absolute-difference expression node. -/
def manhattan_distance {α : Type} [LinearOrder α] [Sub α] [Add α] {n : Nat}
    (lhs rhs : Vec α (n + 1)) : α :=
  element_sum (element (make_absolute_difference_expression (.vec lhs) (.vec rhs)))

/-! ## The vec.h distance variants -/

/-- `Vec::abs_differences_` (vec.h, lines 242-246): the vector of per-dimension
absolute differences. -/
def abs_differences_ {α : Type} [LinearOrder α] [Sub α] {n : Nat}
    (lhs rhs : Vec α n) : Vec α n :=
  fun i => abs_difference (lhs i) (rhs i)

/-- `Vec::manhattan_distance` for `T = int` (vec.h, lines 76-80):
`std::accumulate(differences.begin(), differences.end(), 0)`.  The literal `0`
makes the accumulator an `int`; for `int` elements every step is exact, so the
fold is a plain left sum. -/
def vecH_manhattan_distance_int {n : Nat} (lhs rhs : Vec Int n) : Int :=
  (List.ofFn (abs_differences_ lhs rhs)).foldl (fun acc x => acc + x) 0

/-- Two's-complement conversion of an integer value to a 32-bit `int`, as
mandated for out-of-range integral conversions (modular reduction into
`[-2^31, 2^31)`). -/
def wrap32 (x : Int) : Int := (x + 2147483648) % 4294967296 - 2147483648

/-- `Vec::manhattan_distance` for `T = std::int64_t` (vec.h, lines 76-80):
`std::accumulate` starts from the `int` literal `0`, so after each addition the
(64-bit) sum is converted back into the 32-bit `int` accumulator, wrapping
modulo `2^32`; the final `int` is then widened to the return type `T`. -/
def vecH_manhattan_distance_i64 {n : Nat} (lhs rhs : Vec Int n) : Int :=
  (List.ofFn (abs_differences_ lhs rhs)).foldl (fun acc x => wrap32 (acc + x)) 0

/-- `Vec::chebyshev_distance` (vec.h, lines 70-74):
`*std::max_element` over the absolute differences, i.e. their maximum; `N` must
be at least 1. -/
def vecH_chebyshev_distance {α : Type} [LinearOrder α] [Sub α] {n : Nat}
    (lhs rhs : Vec α (n + 1)) : α :=
  max_chain (abs_differences_ lhs rhs 0)
    (List.ofFn fun i : Fin n => abs_differences_ lhs rhs i.succ)

/-! ## Comparison operators -/

/-- `Vec::operator_less_than_` of vec.h (lines 279-289), as instantiated by
`operator<` (lines 157-160) at `std::make_index_sequence<N-1>`.
For `N = 2` the sequence is `<0>` and overload resolution picks the more
specialised single-index overload, which compares dimension 0 only.  For
`N ≥ 3` the variadic overload or-folds
`(lhs[I] != rhs[I] && lhs[I] < rhs[I]) || lhs[I+1] < rhs[I+1]` over
`I = 0, ..., N-2`.  For `N = 1` the pack is empty and the fold is `false`.
(`N = 0` is outside the design; `make_index_sequence<N-1>` would not compile.) -/
def operator_less_than_ {α : Type} [LinearOrder α] :
    {n : Nat} → Vec α n → Vec α n → Bool
  | 0, _, _ => false
  | 1, _, _ => false
  | 2, lhs, rhs => decide (lhs 0 < rhs 0)
  | _ + 3, lhs, rhs =>
    (List.finRange _).any fun i =>
      decide ((lhs i.castSucc ≠ rhs i.castSucc ∧ lhs i.castSucc < rhs i.castSucc)
        ∨ lhs i.succ < rhs i.succ)

/-- `std::lexicographical_compare` on two equal-length element sequences, the
semantics of `std::array::operator<`. -/
def lexicographical_compare {α : Type} [LinearOrder α] : List α → List α → Bool
  | _, [] => false
  | [], _ :: _ => true
  | a :: as, b :: bs =>
    if a < b then true
    else if b < a then false
    else lexicographical_compare as bs

/-- `Vector::operator<` of dm/vector.h (lines 247-250):
`lhs.elements_ < rhs.elements_` on `std::array`, i.e. lexicographic comparison
of the element sequences. -/
def Vector_lt {α : Type} [LinearOrder α] {n : Nat} (lhs rhs : Vec α n) : Bool :=
  lexicographical_compare (List.ofFn lhs) (List.ofFn rhs)

/-! ## Batch reductions over a sequence of vectors

The iterator range (dm/vector.h) or container (vec.h) of input vectors is
modelled as a `List`. -/

/-- `std::min_element` keyed on dimension `D`: the first element no later
element is strictly below at `D` (used by both `dm::geom::min` overloads,
vec.h lines 347-358 and dm/vector.h lines 454-464). -/
def min_element_by {α : Type} [LinearOrder α] {n : Nat} (D : Fin n) :
    List (Vec α n) → Option (Vec α n)
  | [] => none
  | v :: vs => some (vs.foldl (fun best w => if w D < best D then w else best) v)

/-- `std::max_element` keyed on dimension `D` (replaces only on
`best < candidate`, so the first maximal element is kept). -/
def max_element_by {α : Type} [LinearOrder α] {n : Nat} (D : Fin n) :
    List (Vec α n) → Option (Vec α n)
  | [] => none
  | v :: vs => some (vs.foldl (fun best w => if best D < w D then w else best) v)

/-- `dm::geom::min<Dimension>` (vec.h, lines 347-358; dm/vector.h, lines
454-464): empty input yields an empty optional, otherwise the `D` component of
the minimal element. -/
def geom_min {α : Type} [LinearOrder α] {n : Nat} (D : Fin n)
    (vectors : List (Vec α n)) : Option α :=
  (min_element_by D vectors).map fun v => v D

/-- `dm::geom::max<Dimension>` (vec.h, lines 360-371; dm/vector.h, lines
466-476). -/
def geom_max {α : Type} [LinearOrder α] {n : Nat} (D : Fin n)
    (vectors : List (Vec α n)) : Option α :=
  (max_element_by D vectors).map fun v => v D

/-- `std::numeric_limits<int>::min()`. -/
def int32_min : Int := -2147483648

/-- `std::numeric_limits<int>::max()`. -/
def int32_max : Int := 2147483647

/-- `std::min(a, b)`: `(b < a) ? b : a`. -/
def std_min {α : Type} [LinearOrder α] (a b : α) : α := if b < a then b else a

/-- `std::max(a, b)`: `(a < b) ? b : a`. -/
def std_max {α : Type} [LinearOrder α] (a b : α) : α := if a < b then b else a

/-- `dm::geom::internal::min_extent` of vec.h (lines 418-433), `T = int`: the
running vector starts at `make_repeated(numeric_limits<int>::min())` and each
step takes `std::min(min[I], vector[I])` per dimension. -/
def vecH_min_extent {n : Nat} (vectors : List (Vec Int n)) : Option (Vec Int n) :=
  match vectors with
  | [] => none
  | _ :: _ =>
    some (vectors.foldl (fun acc v => fun i => std_min (acc i) (v i)) (fun _ => int32_min))

/-- `dm::geom::internal::max_extent` of vec.h (lines 435-450), `T = int`: the
running vector starts at `make_repeated(numeric_limits<int>::min())` and each
step takes `std::max(max[I], vector[I])` per dimension. -/
def vecH_max_extent {n : Nat} (vectors : List (Vec Int n)) : Option (Vec Int n) :=
  match vectors with
  | [] => none
  | _ :: _ =>
    some (vectors.foldl (fun acc v => fun i => std_max (acc i) (v i)) (fun _ => int32_min))

/-- `dm::geom::internal::min_extent` of dm/vector.h (lines 402-416), `T = int`:
the running vector starts at `make_repeated(numeric_limits<int>::max())` and
each step takes `std::min(min[I], (*vec_it)[I])` per dimension. -/
def min_extent {n : Nat} (vectors : List (Vec Int n)) : Option (Vec Int n) :=
  match vectors with
  | [] => none
  | _ :: _ =>
    some (vectors.foldl (fun acc v => fun i => std_min (acc i) (v i)) (fun _ => int32_max))

/-- `dm::geom::internal::max_extent` of dm/vector.h (lines 418-432), `T = int`. -/
def max_extent {n : Nat} (vectors : List (Vec Int n)) : Option (Vec Int n) :=
  match vectors with
  | [] => none
  | _ :: _ =>
    some (vectors.foldl (fun acc v => fun i => std_max (acc i) (v i)) (fun _ => int32_min))

/-- `dm::geom::internal::extents` (dm/vector.h, lines 434-450): one pass
maintaining both running corners. -/
def extents {n : Nat} (vectors : List (Vec Int n)) :
    Option (Vec Int n × Vec Int n) :=
  match vectors with
  | [] => none
  | _ :: _ =>
    some (vectors.foldl
      (fun acc v => (fun i => std_min (acc.1 i) (v i), fun i => std_max (acc.2 i) (v i)))
      (fun _ => int32_max, fun _ => int32_min))

/-! ## Vector arithmetic of dm/vector.h -/

/-- `Vector::elementwise_negate_` (dm/vector.h, lines 350-354). -/
def elementwise_negate_ {α : Type} [Neg α] {n : Nat} (value : Vec α n) : Vec α n :=
  fun i => -(value i)

/-- `Vector::elementwise_subtract_` (dm/vector.h, lines 356-360). -/
def elementwise_subtract_ {α : Type} [Sub α] {n : Nat} (lhs rhs : Vec α n) : Vec α n :=
  fun i => lhs i - rhs i

/-- `Vector::elementwise_add_` (dm/vector.h, lines 362-366). -/
def elementwise_add_ {α : Type} [Add α] {n : Nat} (lhs rhs : Vec α n) : Vec α n :=
  fun i => lhs i + rhs i

/-- `Vector::elementwise_multiply_` (dm/vector.h, lines 368-372). -/
def elementwise_multiply_ {α : Type} [Mul α] {n : Nat} (value : Vec α n) (s : α) :
    Vec α n :=
  fun i => value i * s

/-- `Vector::elementwise_divide_` (dm/vector.h, lines 374-378). -/
def elementwise_divide_ {α : Type} [Div α] {n : Nat} (value : Vec α n) (s : α) :
    Vec α n :=
  fun i => value i / s

/-- `Vector::from_elementwise_expression_` / `operator_assign_` (dm/vector.h,
lines 163-175): building a concrete vector by reading every index of an
expression node. -/
def from_elementwise_expression {α : Type} {n : Nat} (other : Operand α n) : Vec α n :=
  fun i => element other i

/-- `operator*(value, n)` (dm/vector.h, lines 282-286; vec.h, lines 192-196):
per-index `value[I] * n`. -/
def op_mul_vec_scalar {α : Type} [Mul α] {n : Nat} (value : Vec α n) (s : α) :
    Vec α n :=
  elementwise_multiply_ value s

/-- `operator*(n, value)` (dm/vector.h, lines 288-292 forwards to `value * n`;
vec.h, lines 198-202 forwards to the same `operator_multiply_`). -/
def op_mul_scalar_vec {α : Type} [Mul α] {n : Nat} (s : α) (value : Vec α n) :
    Vec α n :=
  op_mul_vec_scalar value s

/-! ## Supporting lemmas -/

theorem abs_difference_nonneg (a b : Int) : 0 ≤ abs_difference a b := by
  simp only [abs_difference]
  split <;> omega

theorem abs_difference_eq_abs (a b : Int) : abs_difference a b = |a - b| := by
  simp only [abs_difference]
  rcases lt_or_le a b with h | h
  · rw [if_pos h, abs_of_neg (by omega : a - b < 0), neg_sub]
  · rw [if_neg (not_lt.mpr h), abs_of_nonneg (by omega : (0 : Int) ≤ a - b)]

theorem abs_difference_eq_dist (c d : Nat) : abs_difference c d = Nat.dist c d := by
  simp only [abs_difference, Nat.dist]
  split <;> omega

theorem sum_chain_eq_sum {α : Type} [AddCommMonoid α] (a : α) (l : List α) :
    sum_chain a l = a + l.sum := by
  induction l generalizing a with
  | nil => simp [sum_chain]
  | cons b bs ih => simp [sum_chain, ih, add_assoc]

theorem element_sum_eq_sum {α : Type} [AddCommMonoid α] {n : Nat}
    (o : Fin (n + 1) → α) : element_sum o = ∑ i, o i := by
  rw [element_sum, sum_chain_eq_sum, List.sum_ofFn, Fin.sum_univ_succ]

theorem sum_chain_nonneg (a : Int) (l : List Int) (ha : 0 ≤ a)
    (hl : ∀ x ∈ l, 0 ≤ x) : 0 ≤ sum_chain a l := by
  induction l generalizing a with
  | nil => simpa [sum_chain] using ha
  | cons b bs ih =>
    have hb : 0 ≤ b := hl b (by simp)
    have hbs := ih b hb fun x hx => hl x (by simp [hx])
    simp only [sum_chain]
    omega

theorem max_chain_le_sum_chain (a : Int) (l : List Int) (ha : 0 ≤ a)
    (hl : ∀ x ∈ l, 0 ≤ x) : max_chain a l ≤ sum_chain a l := by
  induction l generalizing a with
  | nil => simp [max_chain, sum_chain]
  | cons b bs ih =>
    have hb : 0 ≤ b := hl b (by simp)
    have hbs : ∀ x ∈ bs, 0 ≤ x := fun x hx => hl x (by simp [hx])
    have h1 := ih b hb hbs
    have h2 := sum_chain_nonneg b bs hb hbs
    simp only [max_chain, sum_chain, internal_max]
    split <;> omega

/-! ## The claims -/

/-- C1: the claim states that `min_extent` returns the per-dimension minima
and `max_extent` the per-dimension maxima of a non-empty sequence.  The
dm/vector.h implementation does exactly that on the spec's own scenario
`[{1,5,3},{4,2,6}]`, but the vec.h `internal::min_extent` initialises its
running vector with `numeric_limits<int>::min()` (instead of `max()`) and then
folds with `std::min`, so it returns the all-`INT_MIN` vector instead of the
minima. -/
theorem claim_C1 :
    (vecH_min_extent [![1, 5, 3], ![4, 2, 6]]).map (fun v => (v 0, v 1, v 2))
        = some (int32_min, int32_min, int32_min)
      ∧ (min_extent [![1, 5, 3], ![4, 2, 6]]).map (fun v => (v 0, v 1, v 2))
          = some (1, 2, 3)
      ∧ (max_extent [![1, 5, 3], ![4, 2, 6]]).map (fun v => (v 0, v 1, v 2))
          = some (4, 5, 6)
      ∧ int32_min ≠ 1 := by
  decide

/-- C2: the claim states that `operator<` is lexicographic.  dm/vector.h's
`operator<` (via `std::array`) is, but vec.h's `operator_less_than_` is not:
at `N = 2` it instantiates the single-index overload and compares dimension 0
only, so for `lhs = {0,0}`, `rhs = {0,1}` (equal at dimension 0, `lhs` below
`rhs` at the first differing dimension 1) it answers `false` where
lexicographic order answers `true`. -/
theorem claim_C2 :
    operator_less_than_ (![0, 0] : Vec Int 2) ![0, 1] = false
      ∧ Vector_lt (![0, 0] : Vec Int 2) ![0, 1] = true
      ∧ (![0, 0] : Vec Int 2) 0 = (![0, 1] : Vec Int 2) 0
      ∧ (![0, 0] : Vec Int 2) 1 < (![0, 1] : Vec Int 2) 1 := by
  decide

/-- C3: the claim states `manhattan_distance(a, b) = Σ_i |a[i] - b[i]|` for
every scalar type with arithmetic and ordering.  vec.h's variant accumulates
with `std::accumulate(..., 0)`, whose accumulator is a 32-bit `int`; for
`T = std::int64_t` with `a = {2^32, 0}`, `b = {0, 0}` each partial sum wraps
modulo `2^32` and the result is `0`, not `2^32`.  The dm/vector.h variant
(`element_sum` of the absolute-difference expression) returns the correct sum. -/
theorem claim_C3 :
    vecH_manhattan_distance_i64 (![4294967296, 0] : Vec Int 2) ![0, 0] = 0
      ∧ manhattan_distance (![4294967296, 0] : Vec Int 2) ![0, 0] = 4294967296
      ∧ abs_difference (4294967296 : Int) 0 + abs_difference (0 : Int) 0
          = 4294967296 := by
  decide

/-- For the dm/vector.h variant the Chebyshev distance is at most the
Manhattan distance in every dimension `N ≥ 1` (encoded as `n + 1`): the
maximum of the per-dimension absolute differences is bounded by their sum,
every summand being non-negative. -/
theorem chebyshev_le_manhattan_dm {n : Nat} (a b : Vec Int (n + 1)) :
    chebyshev_distance a b ≤ manhattan_distance a b := by
  simp only [chebyshev_distance, manhattan_distance, max_element, element_sum,
    make_absolute_difference_expression, element]
  apply max_chain_le_sum_chain
  · exact abs_difference_nonneg _ _
  · intro x hx
    rcases Set.mem_range.mp ((List.mem_ofFn _ _).mp hx) with ⟨i, rfl⟩
    exact abs_difference_nonneg _ _

/-- C4: the claim asserts `chebyshev_distance(a, b) ≤ manhattan_distance(a, b)`
for any dimension `≥ 1`.  It holds for the dm/vector.h variant (see
`chebyshev_le_manhattan_dm`, shown at this input in the last conjunct), but the
vec.h variant violates it in defined behavior: for `T = std::int64_t`,
`a = {2^32, 0}`, `b = {0, 0}`, vec.h's `chebyshev_distance` is `2^32` (exact
`*std::max_element` over the `T`-typed differences) while its
`manhattan_distance` wraps its 32-bit `int` accumulator to `0`, so the
inequality fails. -/
theorem claim_C4 :
    vecH_chebyshev_distance (![4294967296, 0] : Vec Int 2) ![0, 0] = 4294967296
      ∧ vecH_manhattan_distance_i64 (![4294967296, 0] : Vec Int 2) ![0, 0] = 0
      ∧ ¬(vecH_chebyshev_distance (![4294967296, 0] : Vec Int 2) ![0, 0]
            ≤ vecH_manhattan_distance_i64 (![4294967296, 0] : Vec Int 2) ![0, 0])
      ∧ chebyshev_distance (![4294967296, 0] : Vec Int 2) ![0, 0]
          ≤ manhattan_distance (![4294967296, 0] : Vec Int 2) ![0, 0] := by
  decide

/-- C5: every batch reduction (`min<D>`, `max<D>`, `min_extent`, `max_extent`,
`extents`, in both the vec.h and dm/vector.h variants) returns the empty
optional exactly on the empty input sequence, and a present value on every
non-empty sequence. -/
theorem claim_C5 {n : Nat} (D : Fin n) (l : List (Vec Int n)) :
    (geom_min D l = none ↔ l = []) ∧ (geom_max D l = none ↔ l = [])
      ∧ (min_extent l = none ↔ l = []) ∧ (max_extent l = none ↔ l = [])
      ∧ (extents l = none ↔ l = [])
      ∧ (vecH_min_extent l = none ↔ l = []) ∧ (vecH_max_extent l = none ↔ l = [])
      ∧ ((geom_min D l).isSome = true ↔ l ≠ [])
      ∧ ((min_extent l).isSome = true ↔ l ≠ [])
      ∧ ((extents l).isSome = true ↔ l ≠ []) := by
  cases l with
  | nil =>
    simp [geom_min, geom_max, min_element_by, max_element_by, min_extent,
      max_extent, extents, vecH_min_extent, vecH_max_extent]
  | cons v vs =>
    simp [geom_min, geom_max, min_element_by, max_element_by, min_extent,
      max_extent, extents, vecH_min_extent, vecH_max_extent]

/-- C6: indexing an expression node applies its operator to the per-index
values of its operands, where a container operand contributes its `i`-th
element and a scalar operand contributes itself for every `i`. -/
theorem claim_C6 {α : Type} {n : Nat} (f₁ : α → α) (f₂ : α → α → α)
    (v : Vec α n) (s : α) (e e₁ e₂ : Operand α n) (i : Fin n) :
    element (.vec v) i = v i
      ∧ element (.scalar s) i = s
      ∧ element (.node1 f₁ e) i = f₁ (element e i)
      ∧ element (.node2 f₂ e₁ e₂) i = f₂ (element e₁ i) (element e₂ i) :=
  ⟨rfl, rfl, rfl, rfl⟩

/-- C7: `dot_product`, computed as the `element_sum` reduction of a product
expression node, equals the sum over all dimensions of `a[i] * b[i]`. -/
theorem claim_C7 {n : Nat} (a b : Vec Int (n + 1)) :
    dot_product a b = ∑ i, a i * b i := by
  rw [dot_product, element_sum_eq_sum]
  exact Finset.sum_congr rfl fun i _ => rfl

/-- C8: the absolute-difference operation `(a < b) ? b - a : a - b` computes
`|a - b|` on signed integers and the natural (truncation-free) distance on
unsigned integers. -/
theorem claim_C8 (a b : Int) (c d : Nat) :
    abs_difference a b = |a - b| ∧ abs_difference c d = Nat.dist c d :=
  ⟨abs_difference_eq_abs a b, abs_difference_eq_dist c d⟩

/-- C9: for negate, add, subtract, scalar multiply and scalar divide, the
direct per-index implementation produces exactly the vector obtained by
evaluating the corresponding elementwise expression node index by index. -/
theorem claim_C9 {n : Nat} (a b : Vec Int n) (s : Int) :
    from_elementwise_expression (make_negate_expression (.vec a))
        = elementwise_negate_ a
      ∧ from_elementwise_expression (make_sum_expression (.vec a) (.vec b))
          = elementwise_add_ a b
      ∧ from_elementwise_expression (make_difference_expression (.vec a) (.vec b))
          = elementwise_subtract_ a b
      ∧ from_elementwise_expression (make_product_expression (.vec a) (.scalar s))
          = elementwise_multiply_ a s
      ∧ from_elementwise_expression (make_quotient_expression (.vec a) (.scalar s))
          = elementwise_divide_ a s :=
  ⟨rfl, rfl, rfl, rfl, rfl⟩

/-- C10: scalar multiplication is symmetric in operand position; the
`scalar * vector` overload produces the same vector as `vector * scalar`,
elementwise `value[i] * s` in both cases. -/
theorem claim_C10 {d : Nat} (s : Int) (v : Vec Int d) :
    op_mul_scalar_vec s v = op_mul_vec_scalar v s
      ∧ ∀ i, op_mul_scalar_vec s v i = v i * s :=
  ⟨rfl, fun _ => rfl⟩

end DM
